import Mathlib

/-!
Shallow embedding of the WebRTC audio-transcription client
(`src/audioInterface/src/routes/index.tsx`).

Numeric audio code is modelled over the rationals (exact arithmetic standing
for the floating-point numbers of the source); JavaScript `Math.round`,
`Math.floor` and the `Int16Array` store conversion (truncation toward zero)
are modelled explicitly.  The React component state hooks and mutable refs
are modelled as a record `Session`; the asynchronous environment (data
channel events, peer connection state changes, signaling results, user
clicks on the four buttons) is modelled as an event type with a
deterministic `step` function.  A click on a disabled button produces no
DOM event, so the corresponding `step` branch is the identity.  React
`useCallback` closures capture the render-time value of `connectionState`;
the `onclose` handler registered inside `connect` therefore compares against
the captured value, which the model stores in `oncloseCaptured`.  Both async
callbacks are split at their suspension points: `connect` suspends at its
awaits (its `catch` arrives as a later `connectFailed` event), and
`startRecording` suspends at `await getUserMedia`, so that arbitrary channel
and connection events can interleave between its synchronous prefix
(`clickStartRecording`) and its continuation (`recordingResult`), exactly as
in the source, where neither continuation rechecks the component state.
-/

/-- JavaScript `Math.round`: round half toward positive infinity. -/
def jsRound (q : ℚ) : ℤ := ⌊q + 1/2⌋

/-- `Math.max(-1, Math.min(1, x))` from both quantization loops. -/
def clamp (x : ℚ) : ℚ := max (-1) (min 1 x)

/-- Storing a number into an `Int16Array` converts it with truncation
toward zero (the ToInt16 conversion; no wrap occurs for clamped samples). -/
def truncTowardZero (q : ℚ) : ℤ := if q < 0 then ⌈q⌉ else ⌊q⌋

/-- One quantized sample: `const s = Math.max(-1, Math.min(1, x));
s < 0 ? s * 0x8000 : s * 0x7FFF`, stored into an `Int16Array` slot. -/
def quantize (x : ℚ) : ℤ :=
  if clamp x < 0 then truncTowardZero (clamp x * 32768)
  else truncTowardZero (clamp x * 32767)

/-- Body of the linear-interpolation loop of `resampleAudio`:
`srcIndex = i * ratio; srcIndexFloor = Math.floor(srcIndex);
srcIndexCeil = Math.min(srcIndexFloor + 1, inputData.length - 1);
t = srcIndex - srcIndexFloor;
outputData[i] = inputData[srcIndexFloor] * (1 - t) + inputData[srcIndexCeil] * t`. -/
def interpSample (inputData : List ℚ) (ratio : ℚ) (i : ℕ) : ℚ :=
  let srcIndex : ℚ := (i : ℚ) * ratio
  let srcIndexFloor : ℤ := ⌊srcIndex⌋
  let srcIndexCeil : ℤ := min (srcIndexFloor + 1) ((inputData.length : ℤ) - 1)
  let t : ℚ := srcIndex - (srcIndexFloor : ℚ)
  inputData.getD srcIndexFloor.toNat 0 * (1 - t) +
    inputData.getD srcIndexCeil.toNat 0 * t

/-- `resampleAudio(inputData, sourceSampleRate, targetSampleRate = 16000)`:
identity path when the rates coincide, otherwise linear interpolation into
`Math.round(inputData.length / ratio)` output slots, then quantization. -/
def resampleAudio (inputData : List ℚ) (sourceSampleRate : ℚ)
    (targetSampleRate : ℚ := 16000) : List ℤ :=
  if sourceSampleRate = targetSampleRate then
    inputData.map quantize
  else
    let ratio : ℚ := sourceSampleRate / targetSampleRate
    let outputLength : ℕ := (jsRound ((inputData.length : ℚ) / ratio)).toNat
    ((List.range outputLength).map (interpSample inputData ratio)).map quantize

/-- The five values of the `ConnectionState` union type. -/
inductive ConnState
  | disconnected
  | connecting
  | connected
  | recording
  | error
  deriving DecidableEq, Repr

/-- Lifecycle of the audio data channel object as seen by its handlers:
not yet open, open, errored (an errored channel never fires `onopen`),
closed.  Used only to gate which environment events can still fire. -/
inductive ChState
  | pending
  | opened
  | errored
  | closed
  deriving DecidableEq, Repr

/-- Parsed shape of an inbound transcription channel payload
(the `TranscriptionMessage` interface); a malformed payload is `none`
at the event level. -/
structure TranscriptionMessage where
  type : String
  text : Option String
  message : Option String
  deriving DecidableEq, Repr

/-- The component state: the three `useState` hooks, the six `useRef`
resource slots (`true` = ref currently holds a handle), the audio channel
object lifecycle, the `connectionState` value captured by the `onclose`
closure registered in `connect`, whether an async `connect` invocation is
still in flight (its `catch` can still run), and whether a `startRecording`
invocation is suspended at its `await getUserMedia` (its continuation can
still run, with no state recheck when it resumes). -/
structure Session where
  connectionState : ConnState
  transcription : String
  errorMessage : String
  pcPresent : Bool
  audioChannelPresent : Bool
  transcriptionChannelPresent : Bool
  audioContextPresent : Bool
  mediaStreamPresent : Bool
  processorPresent : Bool
  audioChState : ChState
  oncloseCaptured : Option ConnState
  connectPending : Bool
  recPending : Bool
  deriving DecidableEq, Repr

/-- Initial render: state `disconnected`, empty strings, all refs null. -/
def initSession : Session where
  connectionState := ConnState.disconnected
  transcription := ""
  errorMessage := ""
  pcPresent := false
  audioChannelPresent := false
  transcriptionChannelPresent := false
  audioContextPresent := false
  mediaStreamPresent := false
  processorPresent := false
  audioChState := ChState.closed
  oncloseCaptured := none
  connectPending := false
  recPending := false

/-- The release side effects `cleanup` can perform, in source order. -/
inductive CleanupAction
  | disconnectProcessor
  | stopMediaTracks
  | closeAudioContext
  | closePeerConnection
  deriving DecidableEq, Repr

/-- `cleanup()`: four guarded release blocks (each tests its own ref,
performs its release action, nulls the ref), then unconditionally nulls
both channel refs.  The blocks test independent refs, so the result is the
record with all six refs null plus the list of actions whose guard held. -/
def cleanup (s : Session) : Session × List CleanupAction :=
  ({ s with
      processorPresent := false
      mediaStreamPresent := false
      audioContextPresent := false
      pcPresent := false
      audioChannelPresent := false
      transcriptionChannelPresent := false },
    (if s.processorPresent then [CleanupAction.disconnectProcessor] else []) ++
    (if s.mediaStreamPresent then [CleanupAction.stopMediaTracks] else []) ++
    (if s.audioContextPresent then [CleanupAction.closeAudioContext] else []) ++
    (if s.pcPresent then [CleanupAction.closePeerConnection] else []))

/-- The state part of `cleanup`. -/
def cleanupState (s : Session) : Session := (cleanup s).1

/-- Every resource ref of the session is null. -/
def handlesAbsent (s : Session) : Prop :=
  s.processorPresent = false ∧
  s.mediaStreamPresent = false ∧
  s.audioContextPresent = false ∧
  s.pcPresent = false ∧
  s.audioChannelPresent = false ∧
  s.transcriptionChannelPresent = false

/-- `disconnect()`: cleanup, then state `disconnected`, transcript and
error message cleared. -/
def disconnect (s : Session) : Session :=
  { cleanupState s with
      connectionState := ConnState.disconnected
      transcription := ""
      errorMessage := "" }

/-- `stopRecording()`: disconnect and null the processor, stop and null the
media stream, close and null the audio context, set state `connected`;
peer connection and channels untouched. -/
def stopRecording (s : Session) : Session :=
  { s with
      processorPresent := false
      mediaStreamPresent := false
      audioContextPresent := false
      connectionState := ConnState.connected }

/-- Synchronous prefix of `connect()` up to its first `await`: set state
`connecting`, clear the error message, create the peer connection and both
data channels, register the handlers.  The `onclose` closure captures the
render-time value of `connectionState` (the value in the render whose
`connect` instance was clicked). -/
def connectStart (s : Session) : Session :=
  { s with
      connectionState := ConnState.connecting
      errorMessage := ""
      pcPresent := true
      audioChannelPresent := true
      transcriptionChannelPresent := true
      audioChState := ChState.pending
      oncloseCaptured := some s.connectionState
      connectPending := true }

/-- The `catch` block of `connect()`: set the error message (the message of
the thrown `Error`, or the fallback text), set state `error`, cleanup.
The source has no stale-session guard, so this runs even if `disconnect`
already happened. -/
def connectCatch (s : Session) (errMsg : Option String) : Session :=
  cleanupState
    { s with
        errorMessage := errMsg.getD "Failed to connect"
        connectionState := ConnState.error
        connectPending := false }

/-- `audioChannel.onopen`: set state `connected`. -/
def audioOnOpen (s : Session) : Session :=
  { s with connectionState := ConnState.connected }

/-- `audioChannel.onerror`: fixed message, state `error` (no cleanup). -/
def audioOnError (s : Session) : Session :=
  { s with
      errorMessage := "Audio channel error occurred"
      connectionState := ConnState.error }

/-- `audioChannel.onclose`: `if (connectionState === "recording")
stopRecording()`, where `connectionState` is the value captured by the
closure when `connect` registered the handler. -/
def audioOnClose (s : Session) : Session :=
  if s.oncloseCaptured = some ConnState.recording then stopRecording s else s

/-- The peer connection states the `onconnectionstatechange` handler
distinguishes. -/
inductive PcConnState
  | failed
  | pcDisconnected
  | pcClosed
  | otherState
  deriving DecidableEq, Repr

/-- `pc.onconnectionstatechange`: on `failed`, message plus state `error`
plus cleanup; on `disconnected` or `closed`, state `disconnected` plus
cleanup (the error message is not cleared); otherwise nothing. -/
def onPcStateChange (s : Session) (ps : PcConnState) : Session :=
  match ps with
  | PcConnState.failed =>
      cleanupState
        { s with
            errorMessage := "Connection failed"
            connectionState := ConnState.error }
  | PcConnState.pcDisconnected =>
      cleanupState { s with connectionState := ConnState.disconnected }
  | PcConnState.pcClosed =>
      cleanupState { s with connectionState := ConnState.disconnected }
  | PcConnState.otherState => s

/-- `transcriptionChannel.onmessage`: a parse failure is discarded; a
parsed message appends `text + " "` to the transcript when
`type === "transcription"` and `text` is truthy (a non-empty string);
a `status` message only logs. -/
def onTranscriptionMessage (s : Session) (payload : Option TranscriptionMessage) :
    Session :=
  match payload with
  | none => s
  | some m =>
      if m.type = "transcription" ∧ m.text.getD "" ≠ "" then
        { s with transcription := s.transcription ++ m.text.getD "" ++ " " }
      else s

/-- The setup step of `startRecording()` at which the environment throws:
microphone access (`getUserMedia`), the `AudioContext` constructor,
`createMediaStreamSource`, `createScriptProcessor`, or the audio graph
`connect` calls after the processor ref was assigned. -/
inductive RecFailPoint
  | atGetUserMedia
  | atAudioContextCtor
  | atMediaStreamSource
  | atScriptProcessor
  | atGraphConnect
  deriving DecidableEq, Repr

/-- Environment outcome of a `startRecording()` invocation. -/
inductive RecOutcome
  | success
  | failure (point : RecFailPoint) (errMsg : Option String)
  deriving DecidableEq, Repr

/-- Refs already assigned when the step at the given point throws:
`mediaStreamRef` is set right after `getUserMedia` resolves,
`audioContextRef` right after the constructor, `processorRef` right after
`createScriptProcessor`. -/
def recordingAcquired (s : Session) (p : RecFailPoint) : Session :=
  match p with
  | RecFailPoint.atGetUserMedia => s
  | RecFailPoint.atAudioContextCtor => { s with mediaStreamPresent := true }
  | RecFailPoint.atMediaStreamSource =>
      { s with mediaStreamPresent := true, audioContextPresent := true }
  | RecFailPoint.atScriptProcessor =>
      { s with mediaStreamPresent := true, audioContextPresent := true }
  | RecFailPoint.atGraphConnect =>
      { s with
          mediaStreamPresent := true
          audioContextPresent := true
          processorPresent := true }

/-- The `catch` block of `startRecording()`: set the error message and
state `error`, then release the media stream and the audio context.
The processor ref is not released by this block. -/
def startRecordingCatch (s : Session) (errMsg : Option String) : Session :=
  { s with
      errorMessage := errMsg.getD "Failed to start recording"
      connectionState := ConnState.error
      mediaStreamPresent := false
      audioContextPresent := false }

/-- Synchronous prefix of `startRecording()` up to `await getUserMedia`:
clear transcript and error message and suspend (the connection state is
still whatever it was; the continuation is now in flight). -/
def startRecordingBegin (s : Session) : Session :=
  { s with transcription := "", errorMessage := "", recPending := true }

/-- Continuation of `startRecording()` after `await getUserMedia` settles.
It does not recheck the component state.  On success all three recording
refs are assigned and the state becomes `recording` unconditionally; on a
throw, the refs acquired so far are passed to the catch block. -/
def startRecordingResume (s : Session) (o : RecOutcome) : Session :=
  let s0 := { s with recPending := false }
  match o with
  | RecOutcome.success =>
      { s0 with
          mediaStreamPresent := true
          audioContextPresent := true
          processorPresent := true
          connectionState := ConnState.recording }
  | RecOutcome.failure p m => startRecordingCatch (recordingAcquired s0 p) m

/-- Environment and user events driving the component. -/
inductive Event
  | clickConnect
  | connectDone
  | connectFailed (errMsg : Option String)
  | audioOpen
  | audioError
  | audioClose
  | pcChange (ps : PcConnState)
  | transcriptionMsg (payload : Option TranscriptionMessage)
  | clickStartRecording
  | recordingResult (o : RecOutcome)
  | clickStopRecording
  | clickDisconnect
  deriving DecidableEq, Repr

/-- One event step.  Button clicks are gated by the `disabled` attributes
of the four buttons; channel and peer connection events can fire only while
the peer connection of the current session is alive, and the channel
events respect the channel object lifecycle (in particular an errored or
closed channel never fires `onopen`). -/
def step (s : Session) (e : Event) : Session :=
  match e with
  | Event.clickConnect =>
      if s.connectionState = ConnState.disconnected then connectStart s else s
  | Event.connectDone =>
      if s.connectPending = true then { s with connectPending := false } else s
  | Event.connectFailed m =>
      if s.connectPending = true then connectCatch s m else s
  | Event.audioOpen =>
      if s.pcPresent = true ∧ s.audioChState = ChState.pending then
        { audioOnOpen s with audioChState := ChState.opened }
      else s
  | Event.audioError =>
      if s.pcPresent = true ∧
          (s.audioChState = ChState.pending ∨ s.audioChState = ChState.opened) then
        { audioOnError s with audioChState := ChState.errored }
      else s
  | Event.audioClose =>
      if s.pcPresent = true ∧ s.audioChState ≠ ChState.closed then
        { audioOnClose s with audioChState := ChState.closed }
      else s
  | Event.pcChange ps =>
      if s.pcPresent = true then onPcStateChange s ps else s
  | Event.transcriptionMsg p =>
      if s.pcPresent = true then onTranscriptionMessage s p else s
  | Event.clickStartRecording =>
      if s.connectionState = ConnState.connected then startRecordingBegin s else s
  | Event.recordingResult o =>
      if s.recPending = true then startRecordingResume s o else s
  | Event.clickStopRecording =>
      if s.connectionState = ConnState.recording then stopRecording s else s
  | Event.clickDisconnect =>
      if s.connectionState ≠ ConnState.disconnected then disconnect s else s

/-- Run a trace of events from the initial render. -/
def run (tr : List Event) : Session := tr.foldl step initSession

/-- A session state is reachable when some event trace produces it. -/
def Reachable (s : Session) : Prop := ∃ tr : List Event, run tr = s

/-- Auxiliary invariant for the error message analysis: the Connecting
state carries an empty error message.  This single implication is
inductive on its own: the only transition into `connecting` is the
synchronous prefix of `connect`, which clears the message, and every
transition that writes a non-empty message also leaves `connecting`. -/
def ConnectingMsgInv (s : Session) : Prop :=
  s.connectionState = ConnState.connecting → s.errorMessage = ""

/-- The initial render satisfies the Connecting message invariant. -/
theorem initSession_inv : ConnectingMsgInv initSession := by
  simp [initSession, ConnectingMsgInv]

/-- Every event step preserves the Connecting message invariant. -/
theorem step_preserves_inv (s : Session) (e : Event) (h : ConnectingMsgInv s) :
    ConnectingMsgInv (step s e) := by
  cases e with
  | clickConnect =>
      by_cases hc : s.connectionState = ConnState.disconnected
      · simp only [step, if_pos hc]
        exact fun _ => rfl
      · simp only [step, if_neg hc]
        exact h
  | connectDone =>
      by_cases hc : s.connectPending = true
      · simp only [step, if_pos hc]
        exact h
      · simp only [step, if_neg hc]
        exact h
  | connectFailed m =>
      by_cases hc : s.connectPending = true
      · simp only [step, if_pos hc]
        simp [connectCatch, cleanupState, cleanup, ConnectingMsgInv]
      · simp only [step, if_neg hc]
        exact h
  | audioOpen =>
      by_cases hc : s.pcPresent = true ∧ s.audioChState = ChState.pending
      · simp only [step, if_pos hc]
        simp [audioOnOpen, ConnectingMsgInv]
      · simp only [step, if_neg hc]
        exact h
  | audioError =>
      by_cases hc : s.pcPresent = true ∧
          (s.audioChState = ChState.pending ∨ s.audioChState = ChState.opened)
      · simp only [step, if_pos hc]
        simp [audioOnError, ConnectingMsgInv]
      · simp only [step, if_neg hc]
        exact h
  | audioClose =>
      by_cases hc : s.pcPresent = true ∧ s.audioChState ≠ ChState.closed
      · simp only [step, if_pos hc, audioOnClose]
        split_ifs with hcap
        · simp [stopRecording, ConnectingMsgInv]
        · exact h
      · simp only [step, if_neg hc]
        exact h
  | pcChange ps =>
      by_cases hc : s.pcPresent = true
      · simp only [step, if_pos hc]
        cases ps with
        | failed => simp [onPcStateChange, cleanupState, cleanup, ConnectingMsgInv]
        | pcDisconnected =>
            simp [onPcStateChange, cleanupState, cleanup, ConnectingMsgInv]
        | pcClosed => simp [onPcStateChange, cleanupState, cleanup, ConnectingMsgInv]
        | otherState => exact h
      · simp only [step, if_neg hc]
        exact h
  | transcriptionMsg p =>
      by_cases hc : s.pcPresent = true
      · simp only [step, if_pos hc]
        cases p with
        | none => exact h
        | some m =>
            simp only [onTranscriptionMessage]
            split
            · exact h
            · exact h
      · simp only [step, if_neg hc]
        exact h
  | clickStartRecording =>
      by_cases hc : s.connectionState = ConnState.connected
      · simp only [step, if_pos hc]
        exact fun _ => rfl
      · simp only [step, if_neg hc]
        exact h
  | recordingResult o =>
      by_cases hc : s.recPending = true
      · simp only [step, if_pos hc]
        cases o with
        | success => simp [startRecordingResume, ConnectingMsgInv]
        | failure p m =>
            cases p <;>
              simp [startRecordingResume, startRecordingCatch, recordingAcquired,
                ConnectingMsgInv]
      · simp only [step, if_neg hc]
        exact h
  | clickStopRecording =>
      by_cases hc : s.connectionState = ConnState.recording
      · simp only [step, if_pos hc]
        simp [stopRecording, ConnectingMsgInv]
      · simp only [step, if_neg hc]
        exact h
  | clickDisconnect =>
      by_cases hc : s.connectionState ≠ ConnState.disconnected
      · simp only [step, if_pos hc]
        exact fun _ => rfl
      · simp only [step, if_neg hc]
        exact h

/-- The Connecting message invariant holds after every event trace. -/
theorem run_inv (tr : List Event) : ConnectingMsgInv (run tr) := by
  rw [run]
  have haux : ∀ (l : List Event) (t : Session),
      ConnectingMsgInv t → ConnectingMsgInv (l.foldl step t) := by
    intro l
    induction l with
    | nil => exact fun t ht => ht
    | cons e l ih => exact fun t ht => ih _ (step_preserves_inv t e ht)
  exact haux tr initSession initSession_inv

/-- Claim C1: with positive, distinct source and target rates,
`resampleAudio` returns `Math.round(inputLength / ratio)` samples, and the
sample at output index `i` is the quantization of the linear interpolation
`input[floor(i * ratio)] * (1 - t) + input[min(floor(i * ratio) + 1, inputLength - 1)] * t`
where `t = i * ratio - floor(i * ratio)` and `ratio = sourceRate / targetRate`. -/
theorem resampleAudio_interpolation_formula (input : List ℚ) (sr tr : ℚ)
    (hsr : 0 < sr) (htr : 0 < tr) (hne : sr ≠ tr) :
    ((resampleAudio input sr tr).length : ℤ) =
        jsRound ((input.length : ℚ) / (sr / tr)) ∧
    ∀ i : ℕ, i < (resampleAudio input sr tr).length →
      (resampleAudio input sr tr)[i]? =
        some (quantize
          (input.getD (⌊(i : ℚ) * (sr / tr)⌋).toNat 0 *
              (1 - ((i : ℚ) * (sr / tr) - (⌊(i : ℚ) * (sr / tr)⌋ : ℚ))) +
            input.getD (min (⌊(i : ℚ) * (sr / tr)⌋ + 1) ((input.length : ℤ) - 1)).toNat 0 *
              ((i : ℚ) * (sr / tr) - (⌊(i : ℚ) * (sr / tr)⌋ : ℚ)))) := by
  have hnn : (0 : ℤ) ≤ jsRound ((input.length : ℚ) / (sr / tr)) := by
    have hratio : 0 < sr / tr := div_pos hsr htr
    rw [jsRound]
    apply Int.le_floor.mpr
    push_cast
    positivity
  constructor
  · simp only [resampleAudio, if_neg hne, List.length_map, List.length_range]
    exact Int.toNat_of_nonneg hnn
  · intro i hi
    have hi' : i < (jsRound ((input.length : ℚ) / (sr / tr))).toNat := by
      simpa only [resampleAudio, if_neg hne, List.length_map, List.length_range] using hi
    simp only [resampleAudio, if_neg hne]
    rw [List.getElem?_map, List.getElem?_map, List.getElem?_range hi']
    simp [interpSample]

/-- Witness for claim C1 at a concrete input: two samples downsampled from
32000 Hz to 16000 Hz give one output sample. -/
theorem resampleAudio_interpolation_formula_witness :
    ((resampleAudio [(1 : ℚ)/2, 1/4] 32000 16000).length : ℤ) =
      jsRound ((([(1 : ℚ)/2, 1/4] : List ℚ).length : ℚ) / (32000 / 16000)) :=
  (resampleAudio_interpolation_formula [(1 : ℚ)/2, 1/4] 32000 16000
    (by norm_num) (by norm_num) (by norm_num)).1

/-- Claim C2 (code bug witness): after connecting from Disconnected,
opening the audio channel and starting a recording (click plus successful
continuation), the audio channel close event does NOT invoke
`stopRecording`: the `onclose` closure captured the render-time value
`disconnected` of `connectionState`, so the session stays in `recording`
with the media stream and processor still held, contradicting the claimed
Recording to Connected transition. -/
theorem audioClose_while_recording_is_noop :
    (run [Event.clickConnect, Event.audioOpen,
          Event.clickStartRecording,
          Event.recordingResult RecOutcome.success, Event.audioClose]).connectionState
        = ConnState.recording ∧
    (run [Event.clickConnect, Event.audioOpen,
          Event.clickStartRecording,
          Event.recordingResult RecOutcome.success, Event.audioClose]).mediaStreamPresent
        = true ∧
    (run [Event.clickConnect, Event.audioOpen,
          Event.clickStartRecording,
          Event.recordingResult RecOutcome.success, Event.audioClose]).processorPresent
        = true ∧
    (run [Event.clickConnect, Event.audioOpen,
          Event.clickStartRecording,
          Event.recordingResult RecOutcome.success, Event.audioClose]).oncloseCaptured
        = some ConnState.disconnected := by decide

/-- Claim C3: clicking Connect outside Disconnected is rejected (the button
is disabled, so the step is the identity: no new session, no state change);
from Disconnected the step moves the state to Connecting. -/
theorem connect_reentrancy_guard (s : Session) :
    (s.connectionState ≠ ConnState.disconnected → step s Event.clickConnect = s) ∧
    (s.connectionState = ConnState.disconnected →
      (step s Event.clickConnect).connectionState = ConnState.connecting) := by
  constructor
  · intro h
    simp [step, h]
  · intro h
    simp [step, h, connectStart]

/-- Witness for claim C3: a second Connect click right after the first one
is a no-op, and the first click from the initial state yields Connecting. -/
theorem connect_reentrancy_guard_witness :
    step (run [Event.clickConnect]) Event.clickConnect = run [Event.clickConnect] ∧
    (step initSession Event.clickConnect).connectionState = ConnState.connecting :=
  ⟨(connect_reentrancy_guard (run [Event.clickConnect])).1 (by decide),
   (connect_reentrancy_guard initSession).2 (by decide)⟩

/-- Claim C4: one `cleanup` call leaves every resource handle absent, and a
second consecutive call performs no release action and changes nothing. -/
theorem cleanup_idempotent (s : Session) :
    handlesAbsent (cleanup s).1 ∧ cleanup (cleanup s).1 = ((cleanup s).1, []) := by
  refine ⟨?_, ?_⟩ <;> simp [cleanup, handlesAbsent]

/-- Claim C5: `disconnect` from any state yields Disconnected with an empty
transcript and an empty error message, with every resource handle released
by the cleanup it invokes. -/
theorem disconnect_resets_session (s : Session) :
    (disconnect s).connectionState = ConnState.disconnected ∧
    (disconnect s).transcription = "" ∧
    (disconnect s).errorMessage = "" ∧
    handlesAbsent (disconnect s) := by
  refine ⟨rfl, rfl, rfl, ?_⟩
  simp [disconnect, cleanupState, cleanup, handlesAbsent]

/-- Claim C6: quantization clamps to [-1, 1] and scales negative values by
32768 and non-negative values by 32767 (with the Int16Array truncation);
1 maps to 32767, -1 to -32768 and 0 to 0, on the identity path
(equal rates) and on the interpolation path (32000 Hz to 16000 Hz). -/
theorem quantization_clamp_scale_boundaries :
    (∀ x : ℚ, quantize x =
        truncTowardZero (clamp x * (if clamp x < 0 then 32768 else 32767))) ∧
    quantize 1 = 32767 ∧ quantize (-1) = -32768 ∧ quantize 0 = 0 ∧
    resampleAudio [1, -1, 0] 16000 16000 = [32767, -32768, 0] ∧
    resampleAudio [1, 1, -1, -1, 0, 0] 32000 16000 = [32767, -32768, 0] := by
  refine ⟨?_, ?_, ?_, ?_, ?_, ?_⟩
  · intro x
    rw [quantize]
    split_ifs <;> rfl
  · norm_num [quantize, clamp, truncTowardZero, min_def, max_def]
  · norm_num [quantize, clamp, truncTowardZero, min_def, max_def, Int.ceil_neg]
  · norm_num [quantize, clamp, truncTowardZero, min_def, max_def]
  · norm_num [resampleAudio, quantize, clamp, truncTowardZero, min_def, max_def, Int.ceil_neg]
  · norm_num [resampleAudio, quantize, clamp, truncTowardZero, interpSample, jsRound,
      min_def, max_def, Int.ceil_neg, List.range_succ,
      show Int.toNat 3 = 3 from rfl, show Int.toNat 0 = 0 from rfl,
      show Int.toNat 2 = 2 from rfl, show Int.toNat 4 = 4 from rfl]

/-- Claim C7: with equal source and target rates, `resampleAudio` performs
no interpolation: the output is the elementwise clamp-and-quantize of the
input, of the same length. -/
theorem identity_resampling_direct_quantize (input : List ℚ) (rate : ℚ) :
    resampleAudio input rate rate = input.map quantize ∧
    (resampleAudio input rate rate).length = input.length ∧
    ∀ i : ℕ, (resampleAudio input rate rate)[i]? = input[i]?.map quantize := by
  refine ⟨by simp [resampleAudio], by simp [resampleAudio], ?_⟩
  intro i
  simp [resampleAudio, List.getElem?_map]

/-- Claim C8 (code bug witness): when a setup step of `startRecording`
throws after `createScriptProcessor` assigned the processor ref, the catch
block releases the media stream and the audio context but leaves the
processor allocated in the Error state, contradicting the claim that every
partially acquired recording resource is released. -/
theorem startRecording_failure_leaks_processor :
    (run [Event.clickConnect, Event.audioOpen,
          Event.clickStartRecording,
          Event.recordingResult
            (RecOutcome.failure RecFailPoint.atGraphConnect (some "boom"))]).connectionState
        = ConnState.error ∧
    (run [Event.clickConnect, Event.audioOpen,
          Event.clickStartRecording,
          Event.recordingResult
            (RecOutcome.failure RecFailPoint.atGraphConnect (some "boom"))]).processorPresent
        = true ∧
    (run [Event.clickConnect, Event.audioOpen,
          Event.clickStartRecording,
          Event.recordingResult
            (RecOutcome.failure RecFailPoint.atGraphConnect (some "boom"))]).mediaStreamPresent
        = false ∧
    (run [Event.clickConnect, Event.audioOpen,
          Event.clickStartRecording,
          Event.recordingResult
            (RecOutcome.failure RecFailPoint.atGraphConnect (some "boom"))]).audioContextPresent
        = false := by decide

/-- Counterexample to claim C9 as stated, refuting each failing part at a
concrete trace: (1) connect, audio channel error, peer connection reports
disconnected reaches the non-Error state Disconnected with the stale
non-empty message (the disconnected/closed branch of
`onconnectionstatechange` never clears it); (2) a channel error firing
inside the `startRecording` await window is followed by the continuation
unconditionally setting state `recording`, reaching Recording with a
non-empty message; (3) stopping that recording reaches Connected with the
same non-empty message; (4) a caught `Error` whose message is the empty
string reaches the Error state with an empty message. -/
theorem error_message_claim_counterexamples :
    ((run [Event.clickConnect, Event.audioError,
           Event.pcChange PcConnState.pcDisconnected]).connectionState
         = ConnState.disconnected ∧
     (run [Event.clickConnect, Event.audioError,
           Event.pcChange PcConnState.pcDisconnected]).errorMessage
         = "Audio channel error occurred") ∧
    ((run [Event.clickConnect, Event.audioOpen, Event.clickStartRecording,
           Event.audioError,
           Event.recordingResult RecOutcome.success]).connectionState
         = ConnState.recording ∧
     (run [Event.clickConnect, Event.audioOpen, Event.clickStartRecording,
           Event.audioError,
           Event.recordingResult RecOutcome.success]).errorMessage
         = "Audio channel error occurred") ∧
    ((run [Event.clickConnect, Event.audioOpen, Event.clickStartRecording,
           Event.audioError, Event.recordingResult RecOutcome.success,
           Event.clickStopRecording]).connectionState
         = ConnState.connected ∧
     (run [Event.clickConnect, Event.audioOpen, Event.clickStartRecording,
           Event.audioError, Event.recordingResult RecOutcome.success,
           Event.clickStopRecording]).errorMessage
         = "Audio channel error occurred") ∧
    ((run [Event.clickConnect, Event.connectFailed (some "")]).connectionState
         = ConnState.error ∧
     (run [Event.clickConnect, Event.connectFailed (some "")]).errorMessage
         = "") := by decide

/-- Claim C9 (amended): in every reachable state, the Connecting state
carries an empty error message.  The other parts of the original claim are
each refuted by the counterexample: Disconnected can retain a stale
message after a transport disconnected/closed notification; Recording and
Connected can retain the message of a channel error that fired during the
`startRecording` await window, because the continuation never rechecks the
state; and the Error state carries whatever message the triggering failure
supplied, which is empty when a caught `Error` had an empty message. -/
theorem connecting_state_carries_empty_error_message (s : Session)
    (hs : Reachable s) (hc : s.connectionState = ConnState.connecting) :
    s.errorMessage = "" := by
  obtain ⟨tr, rfl⟩ := hs
  exact run_inv tr hc

/-- Witness for amended claim C9: the reachable Connecting state right
after a Connect click carries an empty error message. -/
theorem connecting_state_carries_empty_error_message_witness :
    (run [Event.clickConnect]).errorMessage = "" :=
  connecting_state_carries_empty_error_message (run [Event.clickConnect])
    ⟨[Event.clickConnect], rfl⟩ (by decide)

/-- Claim C10: for a non-empty input block and positive rates, every output
index of the interpolation loop reads the input only in bounds: the floor
index and the capped ceil index both lie in [0, inputLength - 1]. -/
theorem interpolation_reads_in_bounds (input : List ℚ) (sr tr : ℚ)
    (hlen : 1 ≤ input.length) (hsr : 0 < sr) (htr : 0 < tr) :
    ∀ i : ℕ, i < (jsRound ((input.length : ℚ) / (sr / tr))).toNat →
      0 ≤ ⌊(i : ℚ) * (sr / tr)⌋ ∧
      (⌊(i : ℚ) * (sr / tr)⌋).toNat < input.length ∧
      0 ≤ min (⌊(i : ℚ) * (sr / tr)⌋ + 1) ((input.length : ℤ) - 1) ∧
      (min (⌊(i : ℚ) * (sr / tr)⌋ + 1) ((input.length : ℤ) - 1)).toNat < input.length ∧
      (sr ≠ tr → i < (resampleAudio input sr tr).length) := by
  have hratio : 0 < sr / tr := div_pos hsr htr
  intro i hi
  have hiz : (i : ℤ) < jsRound ((input.length : ℚ) / (sr / tr)) := by omega
  rw [jsRound] at hiz
  have h1 : ((i : ℤ) + 1 : ℚ) ≤ (input.length : ℚ) / (sr / tr) + 1/2 := by
    have := Int.le_floor.mp (Int.lt_iff_add_one_le.mp hiz)
    push_cast at this ⊢
    linarith
  have h2 : ((i : ℚ) + 1/2) * (sr / tr) ≤ (input.length : ℚ) := by
    apply (le_div_iff₀ hratio).mp
    push_cast at h1 ⊢
    linarith
  have h3 : (i : ℚ) * (sr / tr) < (input.length : ℚ) := by nlinarith
  have hfl_lt : ⌊(i : ℚ) * (sr / tr)⌋ < (input.length : ℤ) := by
    apply Int.floor_lt.mpr
    push_cast
    exact h3
  have hfl_nn : 0 ≤ ⌊(i : ℚ) * (sr / tr)⌋ := by
    apply Int.floor_nonneg.mpr
    positivity
  refine ⟨hfl_nn, by omega, le_min (by omega) (by omega), ?_, ?_⟩
  · have hmr : min (⌊(i : ℚ) * (sr / tr)⌋ + 1) ((input.length : ℤ) - 1) ≤
        (input.length : ℤ) - 1 := min_le_right _ _
    have hml : 0 ≤ min (⌊(i : ℚ) * (sr / tr)⌋ + 1) ((input.length : ℤ) - 1) :=
      le_min (by omega) (by omega)
    omega
  · intro hne
    simpa only [resampleAudio, if_neg hne, List.length_map, List.length_range] using hi

/-- Witness for claim C10 at a concrete input: a one-sample block at rates
32000 and 16000, output index 0. -/
theorem interpolation_reads_in_bounds_witness :
    0 ≤ ⌊((0 : ℕ) : ℚ) * ((32000 : ℚ) / 16000)⌋ ∧
    (⌊((0 : ℕ) : ℚ) * ((32000 : ℚ) / 16000)⌋).toNat < [(0 : ℚ)].length ∧
    0 ≤ min (⌊((0 : ℕ) : ℚ) * ((32000 : ℚ) / 16000)⌋ + 1) (([(0 : ℚ)].length : ℤ) - 1) ∧
    (min (⌊((0 : ℕ) : ℚ) * ((32000 : ℚ) / 16000)⌋ + 1)
        (([(0 : ℚ)].length : ℤ) - 1)).toNat < [(0 : ℚ)].length ∧
    ((32000 : ℚ) ≠ 16000 → 0 < (resampleAudio [(0 : ℚ)] 32000 16000).length) :=
  interpolation_reads_in_bounds [(0 : ℚ)] 32000 16000 (by norm_num) (by norm_num)
    (by norm_num) 0 (by norm_num [jsRound])
